import Mathlib

/-!
Verification of the navigation controller in `src/_assets/js/index.js`
(hamburger toggle and mutually-exclusive dropdown group).

The DOM class-list state the script mutates is embedded as a structure
`Doc n`: one Bool per dropdown panel (`dropdown__items--open` token),
one per dropdown expand icon (`dropdown__expand--open` token), one for
the mobile nav panel (`site-nav__items--open`) and one for the
hamburger button (`hamburger--open`).  A click on a dropdown trigger is
embedded as the sequence of classList mutations the handler performs,
in source order; the resolution of the trigger's `aria-controls`
attribute to a panel index, and of the icon id obtained by
`controls.replace("items", "expand")` to an icon index, are parameters
of the event (the claims' DOM-contract hypotheses fix them).
-/

set_option autoImplicit false

namespace NavController

/-- The class-list state of the page regions the script touches:
`panel k` is whether the k-th dropdown panel bears `dropdown__items--open`,
`icon k` whether the k-th expand icon bears `dropdown__expand--open`,
`nav` whether the site-nav panel bears `site-nav__items--open`,
`ham` whether the hamburger button bears `hamburger--open`. -/
structure Doc (n : Nat) where
  panel : Fin n → Bool
  icon : Fin n → Bool
  nav : Bool
  ham : Bool

/-- The page as served: every class token absent. -/
def initDoc (n : Nat) : Doc n :=
  ⟨fun _ => false, fun _ => false, false, false⟩

/-- `forEach` body of the handler: remove the open token from every
element distinct from the target `k` that currently bears it. -/
def closeOthers {n : Nat} (s : Fin n → Bool) (k : Fin n) : Fin n → Bool :=
  fun j => if j ≠ k ∧ s j = true then false else s j

/-- `classList.toggle` on the element at index `k`. -/
def toggleAt {n : Nat} (s : Fin n → Bool) (k : Fin n) : Fin n → Bool :=
  Function.update s k (!(s k))

/-- The primitive classList mutations the dropdown click handler
performs, in the granularity of its four statements. -/
inductive DropAct (n : Nat) where
  | closeSibPanels : Fin n → DropAct n
  | flipPanel : Fin n → DropAct n
  | closeSibIcons : Fin n → DropAct n
  | flipIcon : Fin n → DropAct n
deriving DecidableEq

/-- Semantics of one primitive mutation. -/
def applyAct {n : Nat} (d : Doc n) : DropAct n → Doc n
  | DropAct.closeSibPanels k => { d with panel := closeOthers d.panel k }
  | DropAct.flipPanel k => { d with panel := toggleAt d.panel k }
  | DropAct.closeSibIcons k => { d with icon := closeOthers d.icon k }
  | DropAct.flipIcon k => { d with icon := toggleAt d.icon k }

/-- Run a sequence of primitive mutations. -/
def runActs {n : Nat} (d : Doc n) (l : List (DropAct n)) : Doc n :=
  l.foldl applyAct d

/-- The mutations of the dropdown handler in the order the source
performs them: close the other open panels, toggle the target panel,
close the other open icons, toggle the target icon (`kp` is the panel
resolved from `aria-controls`, `ki` the icon resolved from the
`items`→`expand` id substitution). -/
def clickActs {n : Nat} (kp ki : Fin n) : List (DropAct n) :=
  [DropAct.closeSibPanels kp, DropAct.flipPanel kp,
   DropAct.closeSibIcons ki, DropAct.flipIcon ki]

/-- One dropdown-trigger click.  `kp` is the panel index the trigger's
`aria-controls` value resolves to; `ki` is the icon index the
substituted id resolves to, or `none` when `querySelector` returns
null.  In the null case the icon `forEach` still runs (every icon is
distinct from `null`, so every open icon is closed) and the final
`dropdownIcon.classList.toggle` throws, leaving the state at that
point. -/
def dropdownClick {n : Nat} (d : Doc n) (kp : Fin n) (ki : Option (Fin n)) : Doc n :=
  match ki with
  | some k => runActs d (clickActs kp k)
  | none =>
      { d with
        panel := toggleAt (closeOthers d.panel kp) kp,
        icon := fun j => if d.icon j = true then false else d.icon j }

/-- One hamburger-button click: toggle the nav panel's and the
button's open tokens. -/
def hamburgerClick {n : Nat} (d : Doc n) : Doc n :=
  { d with nav := !d.nav, ham := !d.ham }

/-- A UI event the script reacts to. -/
inductive Event (n : Nat) where
  | ham : Event n
  | drop : Fin n → Option (Fin n) → Event n

/-- Dispatch one event. -/
def step {n : Nat} (d : Doc n) : Event n → Doc n
  | Event.ham => hamburgerClick d
  | Event.drop kp ki => dropdownClick d kp ki

/-- Run a finite sequence of events. -/
def run {n : Nat} (d : Doc n) (es : List (Event n)) : Doc n :=
  es.foldl step d

/-- At most one element of the family bears the open token. -/
def AtMostOne {n : Nat} (s : Fin n → Bool) : Prop :=
  ∀ i j : Fin n, s i = true → s j = true → i = j

theorem closeOthers_eq {n : Nat} (s : Fin n → Bool) (k j : Fin n) :
    closeOthers s k j = if j = k then s k else false := by
  by_cases h : j = k
  · simp [closeOthers, h]
  · cases hs : s j <;> simp [closeOthers, h, hs]

theorem toggleAt_eq {n : Nat} (s : Fin n → Bool) (k j : Fin n) :
    toggleAt s k j = if j = k then !(s k) else s j := by
  unfold toggleAt
  by_cases h : j = k
  · subst h; simp
  · simp [Function.update, h]

/-- The panel column after a dropdown click: the target panel is
flipped, every other panel ends closed (whether or not the icon id
resolved). -/
theorem dropdownClick_panel {n : Nat} (d : Doc n) (kp : Fin n)
    (ki : Option (Fin n)) (j : Fin n) :
    (dropdownClick d kp ki).panel j = if j = kp then !(d.panel kp) else false := by
  have key : toggleAt (closeOthers d.panel kp) kp j
      = if j = kp then !(d.panel kp) else false := by
    rw [toggleAt_eq]
    by_cases h : j = kp
    · simp [h, closeOthers_eq]
    · simp [h, closeOthers_eq]
  cases ki with
  | none => exact key
  | some k =>
      show (runActs d (clickActs kp k)).panel j = _
      simp only [runActs, clickActs, List.foldl, applyAct]
      exact key

/-- The icon column after a dropdown click whose icon id resolved:
the target icon is flipped, every other icon ends closed. -/
theorem dropdownClick_icon {n : Nat} (d : Doc n) (kp k : Fin n) (j : Fin n) :
    (dropdownClick d kp (some k)).icon j = if j = k then !(d.icon k) else false := by
  show (runActs d (clickActs kp k)).icon j = _
  simp only [runActs, clickActs, List.foldl, applyAct]
  rw [toggleAt_eq]
  by_cases h : j = k
  · simp [h, closeOthers_eq]
  · simp [h, closeOthers_eq]

/-- A dropdown click leaves at most one panel open. -/
theorem dropdownClick_atMostOne {n : Nat} (d : Doc n) (kp : Fin n)
    (ki : Option (Fin n)) : AtMostOne (dropdownClick d kp ki).panel := by
  intro i j hi hj
  rw [dropdownClick_panel] at hi hj
  by_cases h1 : i = kp
  · by_cases h2 : j = kp
    · rw [h1, h2]
    · rw [if_neg h2] at hj; exact absurd hj (by simp)
  · rw [if_neg h1] at hi; exact absurd hi (by simp)

/-- The panel mutual-exclusion invariant is preserved by every event. -/
theorem step_atMostOne {n : Nat} (d : Doc n) (e : Event n)
    (h : AtMostOne d.panel) : AtMostOne (step d e).panel := by
  cases e with
  | ham => exact h
  | drop kp ki => exact dropdownClick_atMostOne d kp ki

theorem run_atMostOne {n : Nat} (d : Doc n) (es : List (Event n))
    (h : AtMostOne d.panel) : AtMostOne (run d es).panel := by
  induction es generalizing d with
  | nil => exact h
  | cons e es ih => exact ih (step d e) (step_atMostOne d e h)

theorem dropdownClick_nav {n : Nat} (d : Doc n) (kp : Fin n)
    (ki : Option (Fin n)) : (dropdownClick d kp ki).nav = d.nav := by
  cases ki <;> rfl

theorem dropdownClick_ham {n : Nat} (d : Doc n) (kp : Fin n)
    (ki : Option (Fin n)) : (dropdownClick d kp ki).ham = d.ham := by
  cases ki <;> rfl

theorem step_lockstep {n : Nat} (d : Doc n) (e : Event n)
    (h : d.ham = d.nav) : (step d e).ham = (step d e).nav := by
  cases e with
  | ham =>
      show (hamburgerClick d).ham = (hamburgerClick d).nav
      show (!d.ham) = !d.nav
      rw [h]
  | drop kp ki =>
      show (dropdownClick d kp ki).ham = (dropdownClick d kp ki).nav
      rw [dropdownClick_nav, dropdownClick_ham, h]

theorem run_lockstep {n : Nat} (d : Doc n) (es : List (Event n))
    (h : d.ham = d.nav) : (run d es).ham = (run d es).nav := by
  induction es generalizing d with
  | nil => exact h
  | cons e es ih => exact ih (step d e) (step_lockstep d e h)

theorem dropdown_iconPanel_preserved {n : Nat} (d : Doc n) (k : Fin n)
    (h : d.icon = d.panel) :
    (dropdownClick d k (some k)).icon = (dropdownClick d k (some k)).panel := by
  funext j
  rw [dropdownClick_icon, dropdownClick_panel, h]

theorem run_iconPanel {n : Nat} (d : Doc n) (ks : List (Fin n))
    (h : d.icon = d.panel) :
    (run d (ks.map fun k => Event.drop k (some k))).icon =
      (run d (ks.map fun k => Event.drop k (some k))).panel := by
  induction ks generalizing d with
  | nil => exact h
  | cons k ks ih =>
      exact ih (dropdownClick d k (some k)) (dropdown_iconPanel_preserved d k h)

/-- C1: for every dropdown group of N items all initially closed, and
every finite sequence of dropdown-trigger clicks (each click carrying
the panel index its `aria-controls` value resolves to), after each
click at most one dropdown panel bears the `dropdown__items--open`
token.  Stated for arbitrary event sequences, which in particular
covers every prefix of a click sequence. -/
theorem dropdown_mutual_exclusion (n : Nat) (es : List (Event n)) :
    AtMostOne (run (initDoc n) es).panel :=
  run_atMostOne (initDoc n) es (by intro i j hi _; simp [initDoc] at hi)

/-- C2: with item i open and item j closed (i ≠ j), a single click on
j's trigger (whose association attribute resolves to panel j) leaves
exactly panel j open and every other panel closed. -/
theorem dropdown_switch (n : Nat) (d : Doc n) (i j : Fin n)
    (ki : Option (Fin n)) (hij : i ≠ j) (hi : d.panel i = true)
    (hj : d.panel j = false) :
    (dropdownClick d j ki).panel j = true ∧
      ∀ t : Fin n, t ≠ j → (dropdownClick d j ki).panel t = false := by
  constructor
  · rw [dropdownClick_panel]; simp [hj]
  · intro t ht; rw [dropdownClick_panel]; simp [ht]

/-- C3: from a state satisfying mutual exclusion with item p open
(panel and icon bearing their open tokens), clicking p's own trigger
(panel and icon both resolving to p) leaves every panel and every icon
in the group closed. -/
theorem dropdown_accordion_close (n : Nat) (d : Doc n) (p : Fin n)
    (hinv : AtMostOne d.panel) (hp : d.panel p = true)
    (hip : d.icon p = true) :
    (∀ t : Fin n, (dropdownClick d p (some p)).panel t = false) ∧
      ∀ t : Fin n, (dropdownClick d p (some p)).icon t = false := by
  constructor
  · intro t
    rw [dropdownClick_panel]
    by_cases h : t = p
    · simp [h, hp]
    · simp [h]
  · intro t
    rw [dropdownClick_icon]
    by_cases h : t = p
    · simp [h, hip]
    · simp [h]

/-- C4: starting from the page as served (nav panel and hamburger
button both closed), after any finite sequence of events the
`hamburger--open` token is present exactly when the
`site-nav__items--open` token is, since every hamburger click toggles
both and dropdown clicks touch neither. -/
theorem hamburger_lockstep (n : Nat) (es : List (Event n)) :
    (run (initDoc n) es).ham = (run (initDoc n) es).nav :=
  run_lockstep (initDoc n) es rfl

/-- C5: two consecutive hamburger clicks restore the pre-click open
state of both the nav panel and the hamburger icon, from any starting
state. -/
theorem hamburger_involution (n : Nat) (d : Doc n) :
    hamburgerClick (hamburgerClick d) = d := by
  cases d
  simp [hamburgerClick]

/-- C9: a dropdown click leaves the nav panel's and hamburger
button's open tokens unchanged, and a hamburger click leaves every
dropdown panel's and icon's open token unchanged. -/
theorem frame_disjoint (n : Nat) (d : Doc n) (kp : Fin n)
    (ki : Option (Fin n)) :
    (dropdownClick d kp ki).nav = d.nav ∧
      (dropdownClick d kp ki).ham = d.ham ∧
      (hamburgerClick d).panel = d.panel ∧
      (hamburgerClick d).icon = d.icon :=
  ⟨dropdownClick_nav d kp ki, dropdownClick_ham d kp ki, rfl, rfl⟩

/-- C10: under the full DOM contract (every trigger resolving to its
own panel and its own icon, everything initially closed), after any
finite sequence of trigger clicks each item's icon bears its open
token exactly when its panel does. -/
theorem dropdown_icon_panel_lockstep (n : Nat) (ks : List (Fin n)) (t : Fin n) :
    (run (initDoc n) (ks.map fun k => Event.drop k (some k))).icon t =
      (run (initDoc n) (ks.map fun k => Event.drop k (some k))).panel t :=
  congrFun (run_iconPanel (initDoc n) ks rfl) t

/-- C6 is refuted: the handler's mutation order is close-sibling-panels,
flip target panel, close-sibling-icons, flip target icon; the claimed
order places both sibling-closing passes before either flip.  The two
orders differ already for a one-item group. -/
theorem click_order_counterexample :
    clickActs (0 : Fin 1) 0 ≠
      [DropAct.closeSibPanels (0 : Fin 1), DropAct.closeSibIcons 0,
        DropAct.flipPanel 0, DropAct.flipIcon 0] := by
  decide

/-- C6 amended: the handler closes the other open panels, then flips
the target panel, then closes the other open icons, then flips the
target icon — the icon sibling-closing runs after the panel flip, not
before — and executing the steps in the spec's stated order (both
closing passes first) produces the same final state. -/
theorem click_order_amended (n : Nat) (d : Doc n) (kp ki : Fin n) :
    clickActs kp ki =
      [DropAct.closeSibPanels kp, DropAct.flipPanel kp,
        DropAct.closeSibIcons ki, DropAct.flipIcon ki] ∧
    runActs d (clickActs kp ki) =
      runActs d
        [DropAct.closeSibPanels kp, DropAct.closeSibIcons ki,
          DropAct.flipPanel kp, DropAct.flipIcon ki] :=
  ⟨rfl, rfl⟩

/-- Character-list prefix test, used to embed substring search. -/
def isPre : List Char → List Char → Bool
  | [], _ => true
  | _ :: _, [] => false
  | a :: as, b :: bs => a == b && isPre as bs

/-- Embedding of JavaScript `String.prototype.replace` with a plain
string pattern: the first occurrence of `pat` is replaced by `rep`;
a string without an occurrence is returned unchanged. -/
def jsReplace (pat rep : List Char) : List Char → List Char
  | [] => []
  | c :: rest =>
      if isPre pat (c :: rest) = true then rep ++ (c :: rest).drop pat.length
      else c :: jsReplace pat rep rest

/-- Whether `pat` occurs as a contiguous substring. -/
def containsSub (pat : List Char) : List Char → Bool
  | [] => isPre pat []
  | c :: rest => isPre pat (c :: rest) || containsSub pat rest

/-- Embedding of the icon lookup `controls.replace("items", "expand")`
performed by the dropdown click handler on the trigger's
`aria-controls` value. -/
def resolveIconId (controls : List Char) : List Char :=
  jsReplace ("items".toList) ("expand".toList) controls

theorem isPre_append :
    ∀ pat s : List Char, isPre pat s = true → s = pat ++ s.drop pat.length := by
  intro pat
  induction pat with
  | nil => intro s _; rfl
  | cons a as ih =>
      intro s h
      cases s with
      | nil => exact absurd h (by simp [isPre])
      | cons b bs =>
          have h' : (a == b && isPre as bs) = true := h
          have h1 : a = b := eq_of_beq ((Bool.and_eq_true _ _).mp h').1
          have h2 : isPre as bs = true := ((Bool.and_eq_true _ _).mp h').2
          calc b :: bs = b :: (as ++ bs.drop as.length) := by rw [← ih bs h2]
            _ = (a :: as) ++ (b :: bs).drop (a :: as).length := by
                rw [h1]; simp

/-- C7: the handler's icon lookup takes the trigger's association
value (the panel's id) and replaces its first occurrence of `items`
by `expand`; for every panel id containing the substring `items`, the
resulting id is the panel's id with that substring replaced by
`expand`, i.e. the id the naming convention mandates. -/
theorem icon_id_resolution (s : List Char)
    (h : containsSub ("items".toList) s = true) :
    ∃ a b : List Char, s = a ++ "items".toList ++ b ∧
      resolveIconId s = a ++ "expand".toList ++ b := by
  induction s with
  | nil => exact absurd h (by decide)
  | cons c rest ih =>
      by_cases hp : isPre ("items".toList) (c :: rest) = true
      · refine ⟨[], (c :: rest).drop ("items".toList).length, ?_, ?_⟩
        · simpa using isPre_append _ _ hp
        · show jsReplace ("items".toList) ("expand".toList) (c :: rest) = _
          simp only [jsReplace]
          rw [if_pos hp]
          simp
      · have hpf : isPre ("items".toList) (c :: rest) = false := by
          cases hq : isPre ("items".toList) (c :: rest)
          · rfl
          · exact absurd hq hp
        have h' : containsSub ("items".toList) rest = true := by
          have h2 : (isPre ("items".toList) (c :: rest)
              || containsSub ("items".toList) rest) = true := h
          rw [hpf] at h2
          simpa using h2
        obtain ⟨a, b, hs, hr⟩ := ih h'
        refine ⟨c :: a, b, ?_, ?_⟩
        · simp [hs]
        · have hr' : jsReplace ("items".toList) ("expand".toList) rest
              = a ++ "expand".toList ++ b := hr
          show jsReplace ("items".toList) ("expand".toList) (c :: rest) = _
          simp only [jsReplace]
          rw [if_neg hp, hr']
          simp

/-- The panel id used in the site's markup. -/
def panelIdW : List Char := "problems-dropdown-items".toList

/-- C7 witness: the markup's panel id contains `items`, and the
handler's lookup maps it to `problems-dropdown-expand`. -/
theorem icon_id_resolution_witness :
    containsSub ("items".toList) panelIdW = true ∧
      ∃ a b : List Char, panelIdW = a ++ "items".toList ++ b ∧
        resolveIconId panelIdW = a ++ "expand".toList ++ b :=
  ⟨by decide, icon_id_resolution panelIdW (by decide)⟩

/-- Presence in the DOM of the two elements the hamburger code
queries by id. -/
structure HamDom where
  buttonExists : Bool
  navExists : Bool

/-- Open-token state of the nav panel and the hamburger button. -/
structure HamState where
  navOpen : Bool
  hamOpen : Bool
deriving DecidableEq

/-- A thrown TypeError from dereferencing a null query result. -/
inductive HamErr where
  | nullButton
  | nullNav
deriving DecidableEq

/-- Embedding of `initialiseHamburger`: it queries `#hamburger-button`
and calls `addEventListener` on the result, throwing when the query
returned null.  The nav panel is not queried at initialization. -/
def initialiseHamburger (dom : HamDom) : Except HamErr Unit :=
  if dom.buttonExists then Except.ok () else Except.error HamErr.nullButton

/-- Embedding of the hamburger click handler: it queries
`#site-nav-items` anew, throws on a null result when dereferencing it,
and otherwise toggles both open tokens. -/
def hamburgerHandler (dom : HamDom) (s : HamState) : Except HamErr HamState :=
  if dom.navExists then
    Except.ok { navOpen := !s.navOpen, hamOpen := !s.hamOpen }
  else Except.error HamErr.nullNav

/-- C8 is refuted: with the trigger button present but the nav panel
absent, initialization succeeds — the failure surfaces only when a
click runs the handler. -/
theorem hamburger_init_counterexample :
    initialiseHamburger { buttonExists := true, navExists := false } =
        Except.ok () ∧
      hamburgerHandler { buttonExists := true, navExists := false }
          { navOpen := false, hamOpen := false } =
        Except.error HamErr.nullNav :=
  ⟨rfl, rfl⟩

/-- C8 amended: initialization locates only the trigger button and
fails at handler binding exactly when the button is absent; the nav
panel is located anew on each click, so a missing panel leaves
initialization untouched and makes every click fail instead. -/
theorem hamburger_init_failure (dom : HamDom) (s : HamState) :
    (initialiseHamburger dom = Except.ok () ↔ dom.buttonExists = true) ∧
      (dom.navExists = false →
        hamburgerHandler dom s = Except.error HamErr.nullNav) ∧
      (dom.navExists = true →
        hamburgerHandler dom s =
          Except.ok { navOpen := !s.navOpen, hamOpen := !s.hamOpen }) := by
  refine ⟨?_, ?_, ?_⟩
  · cases hb : dom.buttonExists <;> simp [initialiseHamburger, hb]
  · intro hn; simp [hamburgerHandler, hn]
  · intro hn; simp [hamburgerHandler, hn]

/-- C8 amended, witness at a concrete DOM and state. -/
theorem hamburger_init_failure_witness :
    (initialiseHamburger { buttonExists := true, navExists := true } =
          Except.ok () ↔
        ({ buttonExists := true, navExists := true } : HamDom).buttonExists =
          true) ∧
      (({ buttonExists := true, navExists := true } : HamDom).navExists =
          false →
        hamburgerHandler { buttonExists := true, navExists := true }
            { navOpen := false, hamOpen := false } =
          Except.error HamErr.nullNav) ∧
      (({ buttonExists := true, navExists := true } : HamDom).navExists =
          true →
        hamburgerHandler { buttonExists := true, navExists := true }
            { navOpen := false, hamOpen := false } =
          Except.ok { navOpen := !false, hamOpen := !false }) :=
  hamburger_init_failure { buttonExists := true, navExists := true }
    { navOpen := false, hamOpen := false }

/-- A concrete two-item group with item 0 open (panel and icon). -/
def docW : Doc 2 :=
  { panel := fun t => decide (t = 0), icon := fun t => decide (t = 0),
    nav := false, ham := false }

/-- C2 witness: in `docW` item 0 is open and item 1 closed; clicking
item 1's trigger opens exactly item 1. -/
theorem dropdown_switch_witness :
    ((0 : Fin 2) ≠ 1 ∧ docW.panel 0 = true ∧ docW.panel 1 = false) ∧
      (dropdownClick docW 1 (some 1)).panel 1 = true ∧
        ∀ t : Fin 2, t ≠ 1 → (dropdownClick docW 1 (some 1)).panel t = false :=
  ⟨⟨by decide, by decide, by decide⟩,
    dropdown_switch 2 docW 0 1 (some 1) (by decide) (by decide) (by decide)⟩

/-- C3 witness: in `docW` mutual exclusion holds and item 0 is open;
clicking item 0's own trigger closes every panel and icon. -/
theorem dropdown_accordion_close_witness :
    (AtMostOne docW.panel ∧ docW.panel 0 = true ∧ docW.icon 0 = true) ∧
      (∀ t : Fin 2, (dropdownClick docW 0 (some 0)).panel t = false) ∧
        ∀ t : Fin 2, (dropdownClick docW 0 (some 0)).icon t = false :=
  ⟨⟨by unfold AtMostOne; decide, by decide, by decide⟩,
    dropdown_accordion_close 2 docW 0 (by unfold AtMostOne; decide) (by decide)
      (by decide)⟩

end NavController
